import Mathlib

/-!
Shallow embedding of `src/pong.py` (a single-player Pong variant) and
verification of its specification.  Positions and velocities are Python
floats, modelled as rationals; the score is a Python int, modelled as ℤ.
The calls to `random.uniform` are modelled by an explicit `Draws` record
carrying the drawn values, with a validity predicate stating the ranges
`random.uniform` guarantees.
-/

namespace PongGame

/-- SCREEN_WIDTH = 400 -/
def SCREEN_WIDTH : ℚ := 400

/-- SCREEN_HEIGHT = 300 -/
def SCREEN_HEIGHT : ℚ := 300

/-- BALL_RADIUS = 10 -/
def BALL_RADIUS : ℚ := 10

/-- PADDLE_WIDTH = 10 -/
def PADDLE_WIDTH : ℚ := 10

/-- PADDLE_HEIGHT = 50 -/
def PADDLE_HEIGHT : ℚ := 50

/-- MOVE_AMOUNT = 5 (declared in the source; the move methods use the literal 5) -/
def MOVE_AMOUNT : ℚ := 5

/-- SCORE_HIT = 1 -/
def SCORE_HIT : ℤ := 1

/-- SCORE_MISS = 5 -/
def SCORE_MISS : ℤ := 5

/-- Python class `Point`: position of a game object. -/
structure Point where
  x : ℚ
  y : ℚ
deriving DecidableEq

/-- Python class `Velocity`: velocity of a game object. -/
structure Velocity where
  dx : ℚ
  dy : ℚ
deriving DecidableEq

/-- Python class `Paddle` (drawing omitted; only `center` is game state). -/
structure Paddle where
  center : Point
deriving DecidableEq

/-- Python `Paddle.__init__`: center.x = SCREEN_WIDTH - PADDLE_WIDTH, center.y = SCREEN_HEIGHT * 0.5. -/
def Paddle.init : Paddle :=
  { center := { x := SCREEN_WIDTH - PADDLE_WIDTH, y := SCREEN_HEIGHT * 0.5 } }

/-- Python `Paddle.move_up`: `self.center.y += 5`. -/
def Paddle.move_up (p : Paddle) : Paddle :=
  { p with center := { p.center with y := p.center.y + 5 } }

/-- Python `Paddle.move_down`: `self.center.y -= 5`. -/
def Paddle.move_down (p : Paddle) : Paddle :=
  { p with center := { p.center with y := p.center.y - 5 } }

/-- Python class `Ball` (drawing omitted). -/
structure Ball where
  center : Point
  velocity : Velocity
deriving DecidableEq

/-- One set of values returned by the three `random.uniform` calls made by
`Ball.__init__` / `Ball.restart`. -/
structure Draws where
  y : ℚ
  dx : ℚ
  dy : ℚ
deriving DecidableEq

/-- Ranges guaranteed by `random.uniform(0, SCREEN_HEIGHT)` and `random.uniform(3, 5)`. -/
def Draws.Valid (d : Draws) : Prop :=
  (0 ≤ d.y ∧ d.y ≤ SCREEN_HEIGHT) ∧ (3 ≤ d.dx ∧ d.dx ≤ 5) ∧ (3 ≤ d.dy ∧ d.dy ≤ 5)

instance (d : Draws) : Decidable d.Valid := by
  unfold Draws.Valid
  infer_instance

/-- Python `Ball.__init__`: x = 0, y, dx, dy drawn by `random.uniform`. -/
def Ball.init (d : Draws) : Ball :=
  { center := { x := 0, y := d.y }, velocity := { dx := d.dx, dy := d.dy } }

/-- Python `Ball.advance`: position += velocity. -/
def Ball.advance (b : Ball) : Ball :=
  { b with center := { x := b.center.x + b.velocity.dx, y := b.center.y + b.velocity.dy } }

/-- Python `Ball.bounce_horizontal`: `self.velocity.dx = self.velocity.dx * -1`. -/
def Ball.bounce_horizontal (b : Ball) : Ball :=
  { b with velocity := { b.velocity with dx := b.velocity.dx * (-1) } }

/-- Python `Ball.bounce_vertical`: `self.velocity.dy = self.velocity.dy * -1`. -/
def Ball.bounce_vertical (b : Ball) : Ball :=
  { b with velocity := { b.velocity with dy := b.velocity.dy * (-1) } }

/-- Python `Ball.restart`: identical assignments to `Ball.__init__`, discarding the old state. -/
def Ball.restart (_b : Ball) (d : Draws) : Ball :=
  { center := { x := 0, y := d.y }, velocity := { dx := d.dx, dy := d.dy } }

/-- Game state held by the `Pong` window class: one ball, one paddle, the
score, and the two hold-intent booleans. -/
structure Pong where
  ball : Ball
  paddle : Paddle
  score : ℤ
  holding_left : Bool
  holding_right : Bool
deriving DecidableEq

/-- Python `Pong.__init__`: fresh ball, fresh paddle, score 0, nothing held. -/
def Pong.init (d : Draws) : Pong :=
  { ball := Ball.init d, paddle := Paddle.init, score := 0,
    holding_left := false, holding_right := false }

/-- Effect of `on_key_press` / `on_key_release`: the hold-intent flags are set
between ticks; no other state is touched. -/
def Pong.setHolding (s : Pong) (l r : Bool) : Pong :=
  { s with holding_left := l, holding_right := r }

/-- First pipeline stage of `Pong.update`: `self.ball.advance()`. -/
def Pong.advance_ball (s : Pong) : Pong :=
  { s with ball := s.ball.advance }

/-- Python `Pong.check_keys`: two sequential gated moves, each gate reading the
paddle position current at that point. -/
def Pong.check_keys (s : Pong) : Pong :=
  let s1 :=
    if s.holding_left ∧ s.paddle.center.y - PADDLE_HEIGHT * 0.5 ≥ 0 then
      { s with paddle := s.paddle.move_down }
    else s
  if s1.holding_right ∧ s1.paddle.center.y + PADDLE_HEIGHT * 0.5 < SCREEN_HEIGHT then
    { s1 with paddle := s1.paddle.move_up }
  else s1

/-- Python `Pong.check_miss`: past the right edge, apply the scoring rule and restart the ball. -/
def Pong.check_miss (s : Pong) (d : Draws) : Pong :=
  if s.ball.center.x > SCREEN_WIDTH then
    { s with
      score := if s.score ≥ 5 then s.score - SCORE_MISS else 0,
      ball := s.ball.restart d }
  else s

/-- Python `Pong.check_hit`: collision with the paddle while moving right bounces the
ball horizontally and scores. -/
def Pong.check_hit (s : Pong) : Pong :=
  let too_close_x := PADDLE_WIDTH / 2 + BALL_RADIUS
  let too_close_y := PADDLE_HEIGHT / 2 + BALL_RADIUS
  if |s.ball.center.x - s.paddle.center.x| < too_close_x ∧
      |s.ball.center.y - s.paddle.center.y| < too_close_y ∧
      s.ball.velocity.dx > 0 then
    { s with ball := s.ball.bounce_horizontal, score := s.score + SCORE_HIT }
  else s

/-- Python `Pong.check_bounce`: three sequential sign-gated wall checks, each reading
the state current at that point. -/
def Pong.check_bounce (s : Pong) : Pong :=
  let s1 :=
    if s.ball.center.x - BALL_RADIUS < 0 ∧ s.ball.velocity.dx < 0 then
      { s with ball := s.ball.bounce_horizontal }
    else s
  let s2 :=
    if s1.ball.center.y - BALL_RADIUS < 0 ∧ s1.ball.velocity.dy < 0 then
      { s1 with ball := s1.ball.bounce_vertical }
    else s1
  if s2.ball.center.y + BALL_RADIUS > SCREEN_HEIGHT ∧ s2.ball.velocity.dy > 0 then
    { s2 with ball := s2.ball.bounce_vertical }
  else s2

/-- Python `Pong.update(delta_time)`: advance, apply input, then miss / hit / bounce
in that order.  `delta_time` is received but never read, exactly as in the
source. -/
def Pong.update (s : Pong) (delta_time : ℚ) (d : Draws) : Pong :=
  ((((s.advance_ball).check_keys).check_miss d).check_hit).check_bounce

/-- States reachable from a fresh game by any number of ticks, with the
hold-intent flags set arbitrarily before each tick (as key events would) and
every random draw in the range `random.uniform` guarantees. -/
inductive Reachable : Pong → Prop where
  | init (d : Draws) (hd : d.Valid) : Reachable (Pong.init d)
  | step (s : Pong) (l r : Bool) (dt : ℚ) (d : Draws) (hd : d.Valid)
      (hs : Reachable s) : Reachable ((s.setHolding l r).update dt d)

/-- Paddle-y invariant maintained by the game loop: the position stays in
[20, 275] and remains a multiple of the 5-unit step. -/
def PadOk (y : ℚ) : Prop :=
  20 ≤ y ∧ y ≤ 275 ∧ ∃ n : ℤ, y = 5 * n

/-- Both ball velocity components are nonzero. -/
def VelNonzero (s : Pong) : Prop :=
  s.ball.velocity.dx ≠ 0 ∧ s.ball.velocity.dy ≠ 0

/-- Fold a sequence of `check_miss` calls (one per drawn restart). -/
def runMisses (L : List Draws) (s : Pong) : Pong :=
  L.foldl (fun t d => t.check_miss d) s

/-- Concrete sample draw used for witnesses: y = 150, dx = 3, dy = 3. -/
def d0 : Draws := { y := 150, dx := 3, dy := 3 }

/-- One full tick with the down-arrow held (hold-intent `holding_left`),
using the sample draw for any restart. -/
def holdDownTick (s : Pong) : Pong :=
  (s.setHolding true false).update 0 d0

/-- Concrete state used for witnesses: ball just short of the right edge,
moving right, paddle at its initial place, score 7. -/
def sMiss : Pong :=
  { ball := { center := { x := 399, y := 150 }, velocity := { dx := 5, dy := 4 } },
    paddle := { center := { x := 390, y := 150 } },
    score := 7, holding_left := false, holding_right := false }

/-- Concrete state used as a witness for the miss-scoring rule: the ball is
already past the right edge. -/
def sPastEdge : Pong :=
  { ball := { center := { x := 401, y := 150 }, velocity := { dx := 4, dy := 4 } },
    paddle := { center := { x := 390, y := 150 } },
    score := 7, holding_left := false, holding_right := false }

/-- Concrete ball used as a restart witness: both velocity components negative
before the restart. -/
def bW : Ball :=
  { center := { x := 200, y := 100 }, velocity := { dx := -4, dy := -2 } }

lemma velocity_eq_of_fields (a b : Velocity) (h1 : a.dx = b.dx) (h2 : a.dy = b.dy) : a = b := by
  cases a
  cases b
  simp_all

lemma ball_eq_of_fields (a b : Ball) (h1 : a.center = b.center) (h2 : a.velocity = b.velocity) :
    a = b := by
  cases a
  cases b
  simp_all

lemma pong_eq_of_fields (a b : Pong) (h1 : a.ball = b.ball) (h2 : a.paddle = b.paddle)
    (h3 : a.score = b.score) (h4 : a.holding_left = b.holding_left)
    (h5 : a.holding_right = b.holding_right) : a = b := by
  cases a
  cases b
  simp_all

lemma advance_ball_paddle (s : Pong) : s.advance_ball.paddle = s.paddle := rfl

lemma advance_ball_score (s : Pong) : s.advance_ball.score = s.score := rfl

lemma advance_ball_velocity (s : Pong) : s.advance_ball.ball.velocity = s.ball.velocity := rfl

lemma check_keys_ball (s : Pong) : s.check_keys.ball = s.ball := by
  unfold Pong.check_keys
  dsimp only
  split_ifs <;> rfl

lemma check_keys_score (s : Pong) : s.check_keys.score = s.score := by
  unfold Pong.check_keys
  dsimp only
  split_ifs <;> rfl

lemma check_miss_paddle (s : Pong) (d : Draws) : (s.check_miss d).paddle = s.paddle := by
  unfold Pong.check_miss
  split_ifs <;> rfl

lemma check_hit_paddle (s : Pong) : s.check_hit.paddle = s.paddle := by
  unfold Pong.check_hit
  dsimp only
  split_ifs <;> rfl

lemma check_bounce_paddle (s : Pong) : s.check_bounce.paddle = s.paddle := by
  unfold Pong.check_bounce
  dsimp only
  split_ifs <;> rfl

lemma update_paddle (s : Pong) (dt : ℚ) (d : Draws) :
    (s.update dt d).paddle = s.advance_ball.check_keys.paddle := by
  unfold Pong.update
  rw [check_bounce_paddle, check_hit_paddle, check_miss_paddle]

lemma check_keys_pad_ok (s : Pong) (h : PadOk s.paddle.center.y) :
    PadOk s.check_keys.paddle.center.y := by
  obtain ⟨h20, h275, n, hn⟩ := h
  unfold Pong.check_keys
  dsimp only
  split_ifs with h1 h2 h3
  · dsimp only [Paddle.move_up, Paddle.move_down]
    exact ⟨by linarith, by linarith, n, by linarith⟩
  · dsimp only [Paddle.move_down]
    have h25 : 25 ≤ s.paddle.center.y := by
      have := h1.2
      norm_num [PADDLE_HEIGHT] at this
      linarith
    refine ⟨by linarith, by linarith, n - 1, by push_cast; linarith⟩
  · dsimp only [Paddle.move_up]
    have hlt : s.paddle.center.y < 275 := by
      have := h3.2
      norm_num [PADDLE_HEIGHT, SCREEN_HEIGHT] at this
      linarith
    have hn55 : (n : ℚ) < 55 := by
      rw [hn] at hlt
      linarith
    have hn54 : n ≤ 54 := by
      have : n < 55 := by exact_mod_cast hn55
      omega
    have h270 : s.paddle.center.y ≤ 270 := by
      rw [hn]
      have : (n : ℚ) ≤ 54 := by exact_mod_cast hn54
      linarith
    exact ⟨by linarith, by linarith, n + 1, by push_cast; linarith⟩
  · exact ⟨h20, h275, n, hn⟩

lemma check_hit_eq (s : Pong) :
    s.check_hit =
      if |s.ball.center.x - s.paddle.center.x| < PADDLE_WIDTH / 2 + BALL_RADIUS ∧
          |s.ball.center.y - s.paddle.center.y| < PADDLE_HEIGHT / 2 + BALL_RADIUS ∧
          s.ball.velocity.dx > 0 then
        { s with ball := s.ball.bounce_horizontal, score := s.score + SCORE_HIT }
      else s := rfl

lemma check_bounce_center (s : Pong) : s.check_bounce.ball.center = s.ball.center := by
  unfold Pong.check_bounce
  dsimp only
  split_ifs <;> rfl

lemma check_bounce_score (s : Pong) : s.check_bounce.score = s.score := by
  unfold Pong.check_bounce
  dsimp only
  split_ifs <;> rfl

lemma check_bounce_dx (s : Pong) :
    s.check_bounce.ball.velocity.dx =
      if s.ball.center.x - BALL_RADIUS < 0 ∧ s.ball.velocity.dx < 0
      then -s.ball.velocity.dx else s.ball.velocity.dx := by
  unfold Pong.check_bounce
  dsimp only
  split_ifs <;>
    simp_all [Ball.bounce_horizontal, Ball.bounce_vertical, mul_neg_one]

lemma check_bounce_dy (s : Pong) :
    s.check_bounce.ball.velocity.dy =
      if (s.ball.center.y - BALL_RADIUS < 0 ∧ s.ball.velocity.dy < 0) ∨
          (s.ball.center.y + BALL_RADIUS > SCREEN_HEIGHT ∧ s.ball.velocity.dy > 0)
      then -s.ball.velocity.dy else s.ball.velocity.dy := by
  unfold Pong.check_bounce
  dsimp only
  split_ifs <;>
    (try simp only [Ball.bounce_horizontal, Ball.bounce_vertical] at *) <;>
    (try norm_num [BALL_RADIUS, SCREEN_HEIGHT, not_and_or] at *) <;>
    casesm* _ ∨ _, _ ∧ _ <;>
    first
      | rfl
      | linarith
      | (simp_all; try linarith)

lemma check_miss_score_nonneg (s : Pong) (d : Draws) (h : 0 ≤ s.score) :
    0 ≤ (s.check_miss d).score := by
  unfold Pong.check_miss
  split_ifs <;>
    (try simp only [SCORE_MISS]) <;>
    omega

lemma runMisses_score_nonneg (L : List Draws) (s : Pong) (h : 0 ≤ s.score) :
    0 ≤ (runMisses L s).score := by
  induction L generalizing s with
  | nil => exact h
  | cons d L ih => exact ih _ (check_miss_score_nonneg s d h)

lemma vel_nonzero_check_bounce (s : Pong) (h : VelNonzero s) : VelNonzero s.check_bounce := by
  obtain ⟨hx, hy⟩ := h
  constructor
  · rw [check_bounce_dx]
    split_ifs <;> simpa
  · rw [check_bounce_dy]
    split_ifs <;> simpa

lemma vel_nonzero_check_hit (s : Pong) (h : VelNonzero s) : VelNonzero s.check_hit := by
  obtain ⟨hx, hy⟩ := h
  rw [VelNonzero, check_hit_eq]
  split_ifs <;> simp_all [Ball.bounce_horizontal, mul_neg_one]

lemma vel_nonzero_check_miss (s : Pong) (d : Draws) (hd : d.Valid) (h : VelNonzero s) :
    VelNonzero (s.check_miss d) := by
  have hdx : d.dx ≠ 0 := by
    have := hd.2.1.1
    intro hz
    rw [hz] at this
    norm_num at this
  have hdy : d.dy ≠ 0 := by
    have := hd.2.2.1
    intro hz
    rw [hz] at this
    norm_num at this
  unfold Pong.check_miss
  split_ifs <;>
    first
      | exact h
      | exact ⟨hdx, hdy⟩

lemma vel_nonzero_check_keys (s : Pong) (h : VelNonzero s) : VelNonzero s.check_keys := by
  rw [VelNonzero, check_keys_ball]
  exact h

lemma update_vel_nonzero (s : Pong) (dt : ℚ) (d : Draws) (hd : d.Valid)
    (h : VelNonzero s) : VelNonzero (s.update dt d) := by
  unfold Pong.update
  exact vel_nonzero_check_bounce _ (vel_nonzero_check_hit _
    (vel_nonzero_check_miss _ _ hd (vel_nonzero_check_keys _ h)))

lemma reachable_vel_nonzero (s : Pong) (h : Reachable s) : VelNonzero s := by
  induction h with
  | init d hd =>
      refine ⟨?_, ?_⟩ <;> dsimp [Pong.init, Ball.init]
      · have := hd.2.1.1
        intro hz
        rw [hz] at this
        norm_num at this
      · have := hd.2.2.1
        intro hz
        rw [hz] at this
        norm_num at this
  | step s l r dt d hd hs ih =>
      exact update_vel_nonzero _ _ _ hd ih

lemma update_pad_ok (s : Pong) (dt : ℚ) (d : Draws) (h : PadOk s.paddle.center.y) :
    PadOk ((s.update dt d).paddle.center.y) := by
  rw [update_paddle]
  exact check_keys_pad_ok _ (by rwa [advance_ball_paddle])

lemma check_keys_paddle_x (s : Pong) : s.check_keys.paddle.center.x = s.paddle.center.x := by
  unfold Pong.check_keys
  dsimp only
  split_ifs <;> simp [Paddle.move_up, Paddle.move_down]

lemma check_bounce_holding_left (s : Pong) :
    s.check_bounce.holding_left = s.holding_left := by
  unfold Pong.check_bounce
  dsimp only
  split_ifs <;> rfl

lemma check_bounce_holding_right (s : Pong) :
    s.check_bounce.holding_right = s.holding_right := by
  unfold Pong.check_bounce
  dsimp only
  split_ifs <;> rfl

lemma holdDownTick_y (s : Pong) :
    (holdDownTick s).paddle.center.y =
      if 25 ≤ s.paddle.center.y then s.paddle.center.y - 5 else s.paddle.center.y := by
  unfold holdDownTick
  rw [update_paddle]
  unfold Pong.check_keys
  dsimp only [Pong.advance_ball, Pong.setHolding]
  split_ifs <;>
    norm_num [PADDLE_HEIGHT, Paddle.move_down, Paddle.move_up] at * <;>
    linarith

lemma reachable_holdDownTick (n : ℕ) : Reachable ((holdDownTick)^[n] (Pong.init d0)) := by
  induction n with
  | zero => exact Reachable.init d0 (by decide)
  | succ k ih =>
      rw [Function.iterate_succ_apply']
      exact Reachable.step _ true false 0 d0 (by decide) ih

lemma holdDownTick_iter_y (n : ℕ) (hn : n ≤ 26) :
    ((holdDownTick)^[n] (Pong.init d0)).paddle.center.y = 150 - 5 * n := by
  induction n with
  | zero => norm_num [Pong.init, Paddle.init, SCREEN_HEIGHT]
  | succ k ih =>
      rw [Function.iterate_succ_apply', holdDownTick_y, ih (by omega)]
      have hcond : 25 ≤ (150 : ℚ) - 5 * k := by
        have : (k : ℚ) ≤ 25 := by exact_mod_cast (by omega : k ≤ 25)
        linarith
      rw [if_pos hcond]
      push_cast
      ring

lemma reachable_pad_ok (s : Pong) (h : Reachable s) : PadOk s.paddle.center.y := by
  induction h with
  | init d hd =>
      refine ⟨by norm_num [Pong.init, Paddle.init, SCREEN_HEIGHT, SCREEN_WIDTH, PADDLE_WIDTH],
        by norm_num [Pong.init, Paddle.init, SCREEN_HEIGHT, SCREEN_WIDTH, PADDLE_WIDTH],
        30, by norm_num [Pong.init, Paddle.init, SCREEN_HEIGHT, SCREEN_WIDTH, PADDLE_WIDTH]⟩
  | step s l r dt d hd hs ih =>
      exact update_pad_ok _ _ _ ih

/-- Claim C1, counterexample: the paddle clamp as stated fails.  Starting from
the initial state and holding the down-intent key, after 26 ticks the paddle
has y = 20, so paddle.y − PADDLE_HEIGHT/2 = −5 < 0 even though the state was
produced only by applyInput-gated moves.  (Each phase after check_keys leaves
the paddle untouched, so this is the paddle exactly as applyInput left it.) -/
theorem paddle_clamp_cex :
    Reachable ((holdDownTick)^[26] (Pong.init d0)) ∧
    ¬ (((holdDownTick)^[26] (Pong.init d0)).paddle.center.y - PADDLE_HEIGHT * 0.5 ≥ 0 ∧
       ((holdDownTick)^[26] (Pong.init d0)).paddle.center.y + PADDLE_HEIGHT * 0.5 ≤
         SCREEN_HEIGHT) := by
  constructor
  · exact reachable_holdDownTick 26
  · have hy := holdDownTick_iter_y 26 (by norm_num)
    intro hcl
    have h1 := hcl.1
    rw [hy] at h1
    norm_num [PADDLE_HEIGHT] at h1

/-- Claim C1 (amended): for every sequence of ticks with any hold-intent
inputs, after applyInput the paddle satisfies
paddle.y − PADDLE_HEIGHT/2 ≥ −MOVE_AMOUNT and
paddle.y + PADDLE_HEIGHT/2 ≤ SCREEN_HEIGHT: the gates check the PRE-move
position, so a down move issued at y = 25 overshoots the nominal lower bound
by one 5-unit step, while the upper bound does hold. -/
theorem paddle_clamp (s : Pong) (h : Reachable s) :
    -MOVE_AMOUNT ≤ s.paddle.center.y - PADDLE_HEIGHT * 0.5 ∧
    s.paddle.center.y + PADDLE_HEIGHT * 0.5 ≤ SCREEN_HEIGHT := by
  obtain ⟨h20, h275, -⟩ := reachable_pad_ok s h
  constructor <;> norm_num [MOVE_AMOUNT, PADDLE_HEIGHT, SCREEN_HEIGHT] <;> linarith

/-- Witness for the amended paddle clamp at the initial state. -/
theorem paddle_clamp_witness :
    -MOVE_AMOUNT ≤ (Pong.init d0).paddle.center.y - PADDLE_HEIGHT * 0.5 ∧
    (Pong.init d0).paddle.center.y + PADDLE_HEIGHT * 0.5 ≤ SCREEN_HEIGHT :=
  paddle_clamp (Pong.init d0) (Reachable.init d0 (by decide))

/-- Claim C9: starting from the initial paddle position 150, for every
sequence of ticks with any hold-intent inputs, the paddle y-coordinate stays
inside [PADDLE_HEIGHT/2 − MOVE_AMOUNT, SCREEN_HEIGHT − PADDLE_HEIGHT/2 +
MOVE_AMOUNT] = [20, 280]. -/
theorem paddle_overshoot_bound (s : Pong) (h : Reachable s) :
    PADDLE_HEIGHT / 2 - MOVE_AMOUNT ≤ s.paddle.center.y ∧
    s.paddle.center.y ≤ SCREEN_HEIGHT - PADDLE_HEIGHT / 2 + MOVE_AMOUNT := by
  obtain ⟨h20, h275, -⟩ := reachable_pad_ok s h
  norm_num [PADDLE_HEIGHT, MOVE_AMOUNT, SCREEN_HEIGHT]
  constructor <;> linarith

/-- Witness for the paddle overshoot bound at the initial state. -/
theorem paddle_overshoot_bound_witness :
    PADDLE_HEIGHT / 2 - MOVE_AMOUNT ≤ (Pong.init d0).paddle.center.y ∧
    (Pong.init d0).paddle.center.y ≤ SCREEN_HEIGHT - PADDLE_HEIGHT / 2 + MOVE_AMOUNT :=
  paddle_overshoot_bound (Pong.init d0) (Reachable.init d0 (by decide))

/-- Claim C2: when the ball is past the right edge, a miss with score ≥ 5
decreases the score by exactly 5, otherwise sets it to exactly 0, and then
the ball is restarted; and over every sequence of misses the score never
goes below 0. -/
theorem miss_scoring (s : Pong) (d : Draws) (h0 : 0 ≤ s.score) :
    (s.ball.center.x > SCREEN_WIDTH →
      (5 ≤ s.score → (s.check_miss d).score = s.score - 5) ∧
      (s.score < 5 → (s.check_miss d).score = 0) ∧
      (s.check_miss d).ball = s.ball.restart d) ∧
    0 ≤ (s.check_miss d).score ∧
    (∀ L : List Draws, 0 ≤ (runMisses L s).score) := by
  refine ⟨?_, check_miss_score_nonneg s d h0, fun L => runMisses_score_nonneg L s h0⟩
  intro hx
  unfold Pong.check_miss
  rw [if_pos hx]
  refine ⟨fun h5 => ?_, fun h5 => ?_, rfl⟩
  · dsimp only
    rw [if_pos h5]
    simp [SCORE_MISS]
  · dsimp only
    rw [if_neg (by omega)]

/-- Witness for the miss-scoring rule at a concrete state with score 7 and
the ball at x = 401. -/
theorem miss_scoring_witness :
    0 ≤ sPastEdge.score ∧
    ((sPastEdge.ball.center.x > SCREEN_WIDTH →
        (5 ≤ sPastEdge.score → (sPastEdge.check_miss d0).score = sPastEdge.score - 5) ∧
        (sPastEdge.score < 5 → (sPastEdge.check_miss d0).score = 0) ∧
        (sPastEdge.check_miss d0).ball = sPastEdge.ball.restart d0) ∧
      0 ≤ (sPastEdge.check_miss d0).score ∧
      (∀ L : List Draws, 0 ≤ (runMisses L sPastEdge).score)) :=
  ⟨by norm_num [sPastEdge], miss_scoring sPastEdge d0 (by norm_num [sPastEdge])⟩

/-- Claim C4: after restart the ball is at x = 0 with y in [0, SCREEN_HEIGHT],
and both velocity components lie in [3, 5], in particular strictly positive,
regardless of the prior ball state. -/
theorem restart_invariants (b : Ball) (d : Draws) (hd : d.Valid) :
    (b.restart d).center.x = 0 ∧
    (0 ≤ (b.restart d).center.y ∧ (b.restart d).center.y ≤ SCREEN_HEIGHT) ∧
    (3 ≤ (b.restart d).velocity.dx ∧ (b.restart d).velocity.dx ≤ 5) ∧
    (3 ≤ (b.restart d).velocity.dy ∧ (b.restart d).velocity.dy ≤ 5) ∧
    0 < (b.restart d).velocity.dx ∧ 0 < (b.restart d).velocity.dy := by
  obtain ⟨⟨hy0, hy1⟩, ⟨hx0, hx1⟩, ⟨hz0, hz1⟩⟩ := hd
  exact ⟨rfl, ⟨hy0, hy1⟩, ⟨hx0, hx1⟩, ⟨hz0, hz1⟩,
    lt_of_lt_of_le (by norm_num) hx0, lt_of_lt_of_le (by norm_num) hz0⟩

/-- Witness for the restart postcondition at a concrete ball whose velocity
components were both negative before the restart. -/
theorem restart_invariants_witness :
    (bW.restart d0).center.x = 0 ∧
    (0 ≤ (bW.restart d0).center.y ∧ (bW.restart d0).center.y ≤ SCREEN_HEIGHT) ∧
    (3 ≤ (bW.restart d0).velocity.dx ∧ (bW.restart d0).velocity.dx ≤ 5) ∧
    (3 ≤ (bW.restart d0).velocity.dy ∧ (bW.restart d0).velocity.dy ≤ 5) ∧
    0 < (bW.restart d0).velocity.dx ∧ 0 < (bW.restart d0).velocity.dy :=
  restart_invariants bW d0 (by decide)

/-- Claim C6: bounce_horizontal and bounce_vertical are involutions, and a
single application negates exactly the x- (resp. y-) velocity component,
leaving the other component and the position unchanged. -/
theorem bounce_involution (b : Ball) :
    b.bounce_horizontal.bounce_horizontal = b ∧
    b.bounce_vertical.bounce_vertical = b ∧
    b.bounce_horizontal.velocity.dx = -b.velocity.dx ∧
    b.bounce_horizontal.velocity.dy = b.velocity.dy ∧
    b.bounce_horizontal.center = b.center ∧
    b.bounce_vertical.velocity.dy = -b.velocity.dy ∧
    b.bounce_vertical.velocity.dx = b.velocity.dx ∧
    b.bounce_vertical.center = b.center := by
  refine ⟨?_, ?_, by simp [Ball.bounce_horizontal], rfl, rfl,
    by simp [Ball.bounce_vertical], rfl, rfl⟩
  · refine ball_eq_of_fields _ _ rfl (velocity_eq_of_fields _ _ ?_ rfl)
    simp [Ball.bounce_horizontal]
  · refine ball_eq_of_fields _ _ rfl (velocity_eq_of_fields _ _ rfl ?_)
    simp [Ball.bounce_vertical]

/-- Claim C3: when the hit condition holds (ball within paddle half-extents
plus ball radius on both axes and moving right), check_hit adds exactly 1 to
the score and negates velocity.dx, leaving dy and everything else unchanged;
otherwise check_hit is the identity. -/
theorem hit_scoring (s : Pong) :
    s.check_hit =
      if |s.ball.center.x - s.paddle.center.x| < PADDLE_WIDTH / 2 + BALL_RADIUS ∧
          |s.ball.center.y - s.paddle.center.y| < PADDLE_HEIGHT / 2 + BALL_RADIUS ∧
          s.ball.velocity.dx > 0 then
        { s with
          score := s.score + 1,
          ball := { center := s.ball.center,
                    velocity := { dx := -s.ball.velocity.dx, dy := s.ball.velocity.dy } } }
      else s := by
  rw [check_hit_eq]
  split_ifs with hc
  · simp [Ball.bounce_horizontal, SCORE_HIT]
  · rfl

/-- Claim C5: check_bounce flips dx exactly under the left-wall sign-gated
condition and dy exactly under the top- or bottom-wall sign-gated condition;
the two dy-conditions are mutually exclusive, so no component flips twice,
and re-running check_bounce on its own output (positions unchanged within a
tick) changes nothing. -/
theorem wall_bounce_guard (s : Pong) :
    (s.check_bounce.ball.velocity.dx =
      if s.ball.center.x - BALL_RADIUS < 0 ∧ s.ball.velocity.dx < 0
      then -s.ball.velocity.dx else s.ball.velocity.dx) ∧
    (s.check_bounce.ball.velocity.dy =
      if (s.ball.center.y - BALL_RADIUS < 0 ∧ s.ball.velocity.dy < 0) ∨
          (s.ball.center.y + BALL_RADIUS > SCREEN_HEIGHT ∧ s.ball.velocity.dy > 0)
      then -s.ball.velocity.dy else s.ball.velocity.dy) ∧
    ¬ ((s.ball.center.y - BALL_RADIUS < 0 ∧ s.ball.velocity.dy < 0) ∧
       (s.ball.center.y + BALL_RADIUS > SCREEN_HEIGHT ∧ s.ball.velocity.dy > 0)) ∧
    s.check_bounce.check_bounce = s.check_bounce := by
  refine ⟨check_bounce_dx s, check_bounce_dy s, ?_, ?_⟩
  · rintro ⟨⟨-, h2⟩, ⟨-, h4⟩⟩
    linarith
  · apply pong_eq_of_fields
    · apply ball_eq_of_fields
      · rw [check_bounce_center, check_bounce_center]
      · apply velocity_eq_of_fields
        · rw [check_bounce_dx s.check_bounce, check_bounce_center, check_bounce_dx]
          simp only [BALL_RADIUS, SCREEN_HEIGHT]
          split_ifs <;>
            (try simp only [not_or, not_and_or] at *) <;>
            casesm* _ ∨ _, _ ∧ _ <;>
            first
              | rfl
              | linarith
              | (exfalso; linarith)
        · rw [check_bounce_dy s.check_bounce, check_bounce_center, check_bounce_dy]
          simp only [BALL_RADIUS, SCREEN_HEIGHT]
          split_ifs <;>
            (try simp only [not_or, not_and_or] at *) <;>
            casesm* _ ∨ _, _ ∧ _ <;>
            first
              | rfl
              | linarith
              | (exfalso; linarith)
    · rw [check_bounce_paddle, check_bounce_paddle]
    · rw [check_bounce_score, check_bounce_score]
    · rw [check_bounce_holding_left, check_bounce_holding_left]
    · rw [check_bounce_holding_right, check_bounce_holding_right]

/-- Claim C10: in a tick where the miss condition holds when check_miss runs
(paddle at its fixed x = SCREEN_WIDTH − PADDLE_WIDTH), check_miss has already
restarted the ball to x = 0 before check_hit runs, so check_hit changes
nothing and the tick's score is exactly the miss rule applied to the incoming
score. -/
theorem miss_excludes_hit (s : Pong) (d : Draws)
    (hpx : s.paddle.center.x = SCREEN_WIDTH - PADDLE_WIDTH)
    (hmiss : s.advance_ball.check_keys.ball.center.x > SCREEN_WIDTH) :
    (s.advance_ball.check_keys.check_miss d).check_hit
        = s.advance_ball.check_keys.check_miss d ∧
    ((s.advance_ball.check_keys.check_miss d).check_hit).score
        = (if s.score ≥ 5 then s.score - 5 else 0) := by
  have hps2 : s.advance_ball.check_keys.paddle.center.x = SCREEN_WIDTH - PADDLE_WIDTH := by
    rw [check_keys_paddle_x, advance_ball_paddle, hpx]
  have hmiss2 : (s.advance_ball.check_keys.check_miss d).ball.center.x = 0 := by
    unfold Pong.check_miss
    rw [if_pos hmiss]
    rfl
  have hpad := check_miss_paddle s.advance_ball.check_keys d
  have hhitfail :
      ¬ (|(s.advance_ball.check_keys.check_miss d).ball.center.x -
            (s.advance_ball.check_keys.check_miss d).paddle.center.x| <
            PADDLE_WIDTH / 2 + BALL_RADIUS ∧
          |(s.advance_ball.check_keys.check_miss d).ball.center.y -
            (s.advance_ball.check_keys.check_miss d).paddle.center.y| <
            PADDLE_HEIGHT / 2 + BALL_RADIUS ∧
          (s.advance_ball.check_keys.check_miss d).ball.velocity.dx > 0) := by
    rintro ⟨h1, -, -⟩
    rw [hmiss2, hpad, hps2] at h1
    norm_num [SCREEN_WIDTH, PADDLE_WIDTH, BALL_RADIUS] at h1
  have hid : (s.advance_ball.check_keys.check_miss d).check_hit
      = s.advance_ball.check_keys.check_miss d := by
    rw [check_hit_eq, if_neg hhitfail]
  have hsc : s.advance_ball.check_keys.score = s.score := by
    rw [check_keys_score, advance_ball_score]
  refine ⟨hid, ?_⟩
  rw [hid]
  unfold Pong.check_miss
  rw [if_pos hmiss]
  dsimp only
  rw [hsc]
  simp [SCORE_MISS]

/-- Witness for miss-before-hit exclusion at a concrete state: ball at
x = 399 moving right at 5 crosses the edge after advance; score 7 becomes 2
and check_hit leaves the restarted state untouched. -/
theorem miss_excludes_hit_witness :
    sMiss.paddle.center.x = SCREEN_WIDTH - PADDLE_WIDTH ∧
    sMiss.advance_ball.check_keys.ball.center.x > SCREEN_WIDTH ∧
    ((sMiss.advance_ball.check_keys.check_miss d0).check_hit
        = sMiss.advance_ball.check_keys.check_miss d0 ∧
      ((sMiss.advance_ball.check_keys.check_miss d0).check_hit).score
        = (if sMiss.score ≥ 5 then sMiss.score - 5 else 0)) :=
  ⟨by norm_num [sMiss, SCREEN_WIDTH, PADDLE_WIDTH],
    by
      rw [check_keys_ball]
      norm_num [sMiss, Pong.advance_ball, Ball.advance, SCREEN_WIDTH],
    miss_excludes_hit sMiss d0
      (by norm_num [sMiss, SCREEN_WIDTH, PADDLE_WIDTH])
      (by
        rw [check_keys_ball]
        norm_num [sMiss, Pong.advance_ball, Ball.advance, SCREEN_WIDTH])⟩

/-- Claim C7: the elapsed-time argument of update is never read, so any two
delta-time values produce identical post-tick states. -/
theorem update_ignores_delta_time (s : Pong) (dt1 dt2 : ℚ) (d : Draws) :
    s.update dt1 d = s.update dt2 d := rfl

/-- Claim C8: in every reachable state both ball velocity components are
nonzero: initialization and restart draw them from [3, 5], advance keeps
them, and the bounce operations negate a nonzero component. -/
theorem velocity_never_zero (s : Pong) (h : Reachable s) :
    s.ball.velocity.dx ≠ 0 ∧ s.ball.velocity.dy ≠ 0 :=
  reachable_vel_nonzero s h

/-- Witness for the nonzero-velocity invariant at the initial state. -/
theorem velocity_never_zero_witness :
    (Pong.init d0).ball.velocity.dx ≠ 0 ∧ (Pong.init d0).ball.velocity.dy ≠ 0 :=
  velocity_never_zero (Pong.init d0) (Reachable.init d0 (by decide))

end PongGame
